import Mathlib

/-!
Verification development for the Mafia game-session engine
(src/engine.py, src/config.py, src/visual.py).

The Python engine is shallowly embedded: dictionaries become association
lists that preserve insertion order, `random.shuffle` / `random.choice` /
`random.random` become explicit parameters (a permuted list, index choices,
and a rational roll), database calls (the Store boundary) become either
parameters or returned call lists, and Python float probabilities are
modelled as exact rationals (only the structural values 1/2, 1/10, 1/5,
1/20 and their comparisons matter here).  Functions that can raise a
`KeyError` on a malformed target return `Option`, with `none` for the
raised exception.
-/

namespace Mafia

/-! ### Configuration (src/config.py) -/

def MIN_PLAYERS : Nat := 5

def MAX_PLAYERS : Nat := 10

def POINTS_WIN : Int := 50

def POINTS_LOSE : Int := 10

def ALLOW_MAYOR : Bool := true

def ALLOW_PETRUSHKA : Bool := true

/-- Modelled from the spec: `config.MAFIA_EXTRA_THRESHOLD` is read by
`assign_roles` (engine.py line 144) but is not defined in src/config.py.
The config comment on the role distribution ("adds extra mafia if player
count >= 8") and the spec (8 players trigger the second mafia-aligned
role deterministically) fix the threshold at 8. -/
def MAFIA_EXTRA_THRESHOLD : Nat := 8

/-- Modelled from the spec: `config.ALLOW_DEPUTY` is read by `assign_roles`
(engine.py line 147) but is not defined in src/config.py.  The spec lists a
deputy enable toggle and the default role distribution includes one deputy,
so the toggle is modelled as enabled. -/
def ALLOW_DEPUTY : Bool := true

/-- Modelled from the spec: `config.ALLOW_CONSILGIERE` is read by
`assign_roles` (engine.py line 149) but is not defined in src/config.py.
The spec lists a consigliere enable toggle and the default role
distribution includes one consigliere, so the toggle is modelled as
enabled. -/
def ALLOW_CONSILGIERE : Bool := true

/-! ### Roles (src/visual.py ROLE_LABELS, engine.py faction sets) -/

/-- visual.py `ROLE_LABELS`: the closed role enumeration with its display
labels, in source order. -/
def ROLE_LABELS : List (String × String) :=
  [("don", "Дон"), ("mafia", "Мафія"), ("doctor", "Лікар"),
   ("detective", "Детектив Кішкель"), ("deputy", "Заступник детектива"),
   ("consigliere", "Консильєрі"), ("mayor", "Мер міста"),
   ("executioner", "Палач"), ("civil", "Мирний"), ("petrushka", "Петрушка")]

/-- The closed role enumeration (the keys of `ROLE_LABELS`). -/
def roleEnum : List String := ROLE_LABELS.map (·.1)

/-- Python `visual.ROLE_LABELS.get(r, r)`. -/
def roleLabel (r : String) : String :=
  (((ROLE_LABELS.find? (fun kv => kv.1 == r)).map (·.2)).getD r)

/-- The mafia-aligned faction set used across engine.py
(lines 58, 61, 344, 572). -/
def mafiaRoles : List String := ["don", "mafia", "consigliere"]

/-! ### Python-value helpers -/

/-- Python truthiness of an optional int: `None` and `0` are falsy. -/
def truthyNat : Option Nat → Bool
  | none => false
  | some n => n != 0

/-- Python `a or b` on optional ints (used for `don_pid or mafia_pid`,
engine.py line 318). -/
def pyOr (a b : Option Nat) : Option Nat :=
  if truthyNat a then a else b

/-! ### Ordered dictionaries as association lists -/

/-- Python dict lookup: value of the first (and in practice only) binding. -/
def dictGet (l : List (Nat × α)) (k : Nat) : Option α :=
  (l.find? (fun kv => kv.1 == k)).map (·.2)

/-- Python `k in d`. -/
def dictMem (l : List (Nat × α)) (k : Nat) : Bool :=
  l.any (fun kv => kv.1 == k)

/-- Python `d[k] = v`: overwrite in place, else append (insertion order kept). -/
def dictSet (l : List (Nat × α)) (k : Nat) (v : α) : List (Nat × α) :=
  if dictMem l k then l.map (fun kv => if kv.1 == k then (k, v) else kv)
  else l ++ [(k, v)]

/-- Mutate the value stored under key `k` in place. -/
def dictUpdate (l : List (Nat × α)) (k : Nat) (f : α → α) : List (Nat × α) :=
  l.map (fun kv => if kv.1 == k then (kv.1, f kv.2) else kv)

/-! ### Data model (engine.py PlayerState / GameState) -/

/-- engine.py `PlayerState` (lines 19-33). -/
structure Player where
  name : String
  user_id : Option Nat := none
  is_bot : Bool := false
  role : String := "civil"
  alive : Bool := true
  self_heal_used : Bool := false
  potato_ready : Bool := false
  potato_used : Bool := false
  night_action : Option Nat := none
  check_results : List String := []
  deriving DecidableEq, Repr

/-- engine.py `GameState` (lines 36-61); message ids and the timer task are
external (Notifier / Clock) and carry no game data. -/
structure GameState where
  phase : String := "lobby"
  round_no : Nat := 0
  players : List (Nat × Player) := []
  vote_yes_no : List (Nat × Bool) := []
  nominations : List (Nat × Nat) := []
  confirmations : List (Nat × Bool) := []
  pending_candidate : Option Nat := none
  executioner_immunity : Bool := true
  bukovel : Bool := false
  deriving DecidableEq, Repr

/-- engine.py `GameState.alive_players` (line 54). -/
def GameState.alive_players (s : GameState) : List (Nat × Player) :=
  s.players.filter (fun kv => kv.2.alive)

/-- engine.py `GameState.mafia_side` (line 57). -/
def GameState.mafia_side (s : GameState) : List Nat :=
  (s.players.filter (fun kv => kv.2.alive && mafiaRoles.contains kv.2.role)).map (·.1)

/-- engine.py `GameState.civil_side` (line 60). -/
def GameState.civil_side (s : GameState) : List Nat :=
  (s.players.filter (fun kv => kv.2.alive && !(mafiaRoles.contains kv.2.role))).map (·.1)

/-! ### RoleAssigner (engine.py assign_roles, lines 141-177) -/

/-- engine.py lines 142-156: the role pool before shuffling.  The `while`
padding loop is `roles ++ replicate (count - len roles) "civil"`. -/
def buildRoles (count : Nat) : List String :=
  let roles := ["don"]
  let roles := roles ++ (if count ≥ MAFIA_EXTRA_THRESHOLD then ["mafia"] else [])
  let roles := roles ++ ["doctor", "detective", "executioner"]
  let roles := roles ++ (if ALLOW_DEPUTY then ["deputy"] else [])
  let roles := roles ++ (if ALLOW_CONSILGIERE then ["consigliere"] else [])
  let roles := roles ++ (if ALLOW_MAYOR then ["mayor"] else [])
  let roles := roles ++ (if ALLOW_PETRUSHKA then ["petrushka"] else [])
  roles ++ List.replicate (count - roles.length) "civil"

/-- Python parallel swap `l[i], l[j] = l[j], l[i]`.  Every call site has
both indices in bounds, so the `getD` default is never read. -/
def listSwap (l : List String) (i j : Nat) : List String :=
  (l.set i (l.getD j "")).set j (l.getD i "")

/-- engine.py lines 159-165: force-swap the detective assignment onto a
human.  `hc` replaces `random.choice(human_ids)` (an index into the human
id list). -/
def detectiveSwap (roles : List String) (players : List (Nat × Player)) (hc : Nat) :
    List String :=
  let human_ids := (players.filter (fun kv => !kv.2.is_bot)).map (·.1)
  if roles.contains "detective" && !human_ids.isEmpty then
    let det_index := roles.indexOf "detective"
    let target_pid := human_ids.getD (hc % human_ids.length) 0
    let pid_list := players.map (·.1)
    let swap_index := pid_list.indexOf target_pid
    listSwap roles det_index swap_index
  else roles

/-- engine.py line 167: the non-civil pool with the `or ["don"]` fallback. -/
def activePool (roles : List String) : List String :=
  let ap := roles.filter (fun r => r != "civil")
  if ap.isEmpty then ["don"] else ap

/-- One iteration of the assignment loop (engine.py lines 169-176): the
idx-th roster entry receives `roles[idx]`, with a drawn `civil` replaced by
a uniform draw from the non-civil pool when the player holds an active-role
entitlement.  `buff uid` models the Store call
`db.consume_active_role_buff(user_id)`; `bc idx` replaces the
`random.choice(active_pool)` draw. -/
def assignRole (roles : List String) (buff : Nat → Bool) (bc : Nat → Nat)
    (idx : Nat) (kv : Nat × Player) : Nat × String :=
  let role := roles.getD idx ""
  let role :=
    if truthyNat kv.2.user_id && buff (kv.2.user_id.getD 0) && role == "civil"
    then (activePool roles).getD (bc idx % (activePool roles).length) "don" else role
  (kv.1, role)

/-- engine.py lines 167-177: the assignment loop over `enumerate(pid_order)`. -/
def assignFinal (roles : List String) (players : List (Nat × Player))
    (buff : Nat → Bool) (bc : Nat → Nat) : List (Nat × String) :=
  players.enum.map (fun ip => assignRole roles buff bc ip.1 ip.2)

/-- engine.py `assign_roles` (lines 141-177) given the already-shuffled pool
(`random.shuffle` is modelled by quantifying over permutations of
`buildRoles`).  Returns the (pid, role) assignment in roster order. -/
def assign_roles (shuffled : List String) (players : List (Nat × Player))
    (hc : Nat) (buff : Nat → Bool) (bc : Nat → Nat) : List (Nat × String) :=
  assignFinal (detectiveSwap shuffled players hc) players buff bc

/-! ### Bot auto-fill and night start (engine.py lines 205-282) -/

/-- engine.py `_auto_action` (lines 265-282) for one bot.  `aliveIds` is the
full alive pid list; `r1` and `r2` replace the `random.choice` draws. -/
def auto_action (p : Player) (pid : Nat) (aliveIds : List Nat) (r1 r2 : Nat) : Player :=
  let alive := aliveIds.filter (fun i => i != pid)
  if alive.isEmpty then p
  else if p.role == "don" || p.role == "mafia" then
    { p with night_action := some (alive.getD (r1 % alive.length) 0) }
  else if p.role == "doctor" then
    let choice := alive.getD (r1 % alive.length) 0
    let pool2 := alive.filter (fun i => i != pid)
    let pool2 := if pool2.isEmpty then alive else pool2
    let choice := if choice == pid && p.self_heal_used
                  then pool2.getD (r2 % pool2.length) 0 else choice
    let p := if choice == pid then { p with self_heal_used := true } else p
    { p with night_action := some choice }
  else if p.role == "deputy" || p.role == "consigliere" || p.role == "petrushka" then
    { p with night_action := some (alive.getD (r1 % alive.length) 0) }
  else if p.potato_ready && !p.potato_used then
    { p with night_action := some (alive.getD (r1 % alive.length) 0) }
  else p

/-- engine.py line 213: `p.night_action = None`. -/
def clearNightAction (p : Player) : Player := { p with night_action := none }

/-- One roster entry of the `_request_night_actions` loop (lines 245-247):
living bots run `_auto_action`, everyone else is untouched. -/
def botFill (aliveIds : List Nat) (rng : Nat → Nat × Nat) (pid : Nat) (p : Player) : Player :=
  if p.alive && p.is_bot then auto_action p pid aliveIds (rng pid).1 (rng pid).2 else p

/-- engine.py `_request_night_actions` (lines 243-263): bots auto-fill
synchronously; human prompts are Notifier side effects.  `rng pid` supplies
the two random draws for bot `pid`. -/
def request_night_actions (s : GameState) (rng : Nat → Nat × Nat) : GameState :=
  let aliveIds := s.alive_players.map (·.1)
  { s with players := s.players.map (fun kv => (kv.1, botFill aliveIds rng kv.1 kv.2)) }

/-- engine.py `start_night` (lines 205-216): reset the per-round ledgers,
advance the round counter, clear pending actions, then collect bot actions.
The night animation and timer are Notifier / Clock side effects. -/
def start_night (s : GameState) (rng : Nat → Nat × Nat) : GameState :=
  request_night_actions
    { s with
      phase := "night"
      round_no := s.round_no + 1
      vote_yes_no := []
      nominations := []
      confirmations := []
      pending_candidate := none
      players := s.players.map (fun kv => (kv.1, clearNightAction kv.2)) }
    rng

/-! ### Asynchronous event handlers (engine.py lines 284-308, 414-425, 452-467, 509-524) -/

/-- engine.py `handle_action` (lines 284-308) for one session, after the
`"act:role:target"` payload has been parsed: the first living roster entry
whose user id matches records its (possibly skipped) target; a potato
submission consumes the charge.  Unknown or dead users and out-of-phase
submissions leave the session unchanged (only a generic answer is sent). -/
def handle_action (s : GameState) (uid : Nat) (role : String) (target : Int) : GameState :=
  match s.alive_players.find? (fun kv => kv.2.user_id == some uid) with
  | none => s
  | some kv =>
    if s.phase != "night" then s
    else { s with players := dictUpdate s.players kv.1 (fun p =>
        let p := { p with night_action := if target < 0 then none else some target.toNat }
        if role == "potato" then { p with potato_used := true } else p) }

/-- engine.py `vote_callback` (lines 414-425): the open yes/no poll.  Only
the session phase is checked; the ballot is keyed by raw user id. -/
def vote_callback (s : GameState) (uid : Nat) (voteYes : Bool) : GameState :=
  if s.phase != "vote" then s
  else { s with vote_yes_no := dictSet s.vote_yes_no uid voteYes }

/-- engine.py `handle_nomination` (lines 452-467): the first living roster
entry with the matching user id, while the session is in the vote phase,
records a positive target. -/
def handle_nomination (s : GameState) (uid : Nat) (target : Int) : GameState :=
  match s.alive_players.find? (fun kv => kv.2.user_id == some uid) with
  | none => s
  | some kv =>
    if s.phase == "vote" then
      if target > 0 then { s with nominations := dictSet s.nominations kv.1 target.toNat }
      else s
    else s

/-- engine.py `handle_confirmation` (lines 509-524): in the vote phase, the
first living roster entry with the matching user id that is not the pending
candidate records a yes/no confirmation. -/
def handle_confirmation (s : GameState) (uid : Nat) (confirmYes : Bool) : GameState :=
  if s.phase != "vote" then s
  else
    match s.alive_players.find? (fun kv =>
        kv.2.user_id == some uid && !(decide (some kv.1 = s.pending_candidate))) with
    | none => s
    | some kv => { s with confirmations := dictSet s.confirmations kv.1 confirmYes }

/-! ### WinEvaluator (engine.py check_win / award_points, lines 554-574) -/

/-- engine.py `check_win` (lines 554-566): the resulting state and the
winning side, if any.  The Store / Notifier calls and the `award_points`
invocation are modelled separately. -/
def check_win (s : GameState) : GameState × Option String :=
  let mafia_alive := s.mafia_side.length
  let civil_alive := s.civil_side.length
  if mafia_alive == 0 then ({ s with phase := "ended" }, some "civil")
  else if mafia_alive ≥ civil_alive then ({ s with phase := "ended" }, some "mafia")
  else (s, none)

/-- engine.py `award_points` (lines 568-574): the list of
`db.update_points_by_user_id(user_id, delta, win)` Store calls issued. -/
def award_points (s : GameState) (civil_win : Bool) : List (Nat × Int × Bool) :=
  s.players.filterMap (fun kv =>
    let p := kv.2
    if p.is_bot || !(truthyNat p.user_id) then none
    else
      let win := (mafiaRoles.contains p.role && !civil_win) ||
                 (!(mafiaRoles.contains p.role) && civil_win)
      some (p.user_id.getD 0, if win then POINTS_WIN else POINTS_LOSE, win))

/-! ### VoteResolver: nomination tally (engine.py pick_nomination, lines 469-485) -/

/-- Outcome of the nomination tally: return to night, or enter the
confirmation sub-phase for the winning candidate. -/
inductive NomOutcome
  | toNight
  | confirm (candidate : Nat)
  deriving DecidableEq, Repr

/-- engine.py lines 471-473: the `counts` dict (target, count), in
first-appearance order of targets. -/
def nomCounts (targets : List Nat) : List (Nat × Nat) :=
  targets.foldl (fun acc t => dictSet acc t ((dictGet acc t).getD 0 + 1)) []

/-- Python `max(counts.items(), key=lambda x: x[1])`: the first item
reaching the maximal count (later items replace only on a strictly larger
count). -/
def maxByCount (counts : List (Nat × Nat)) : Option (Nat × Nat) :=
  counts.foldl (fun best kv =>
    match best with
    | none => some kv
    | some b => if kv.2 > b.2 then some kv else some b) none

/-- engine.py `pick_nomination` (lines 469-485).  In the confirm branch the
source continues into `ask_confirmations`; that step is modelled by the
separate `ask_confirmations` below. -/
def pick_nomination (s : GameState) (rng : Nat → Nat × Nat) : GameState × NomOutcome :=
  let threshold := (s.alive_players.length + 1) / 2
  let counts := nomCounts (s.nominations.map (·.2))
  match maxByCount counts with
  | none => (start_night s rng, .toNight)
  | some cv =>
    if cv.2 < threshold then (start_night s rng, .toNight)
    else ({ s with pending_candidate := some cv.1 }, .confirm cv.1)

/-- engine.py `ask_confirmations` (lines 487-507): clear the tally and record
the bot answers synchronously (`botYes pid` models `random.random() > 0.3`);
human prompts are Notifier side effects. -/
def ask_confirmations (s : GameState) (botYes : Nat → Bool) : GameState :=
  match s.pending_candidate with
  | none => { s with confirmations := [] }
  | some cand =>
    { s with confirmations :=
        ((s.alive_players.filter (fun kv => kv.1 != cand && kv.2.is_bot)).map
          (fun kv => (kv.1, botYes kv.1))) }

/-! ### VoteResolver: confirmation and rope-break (engine.py finish_confirmation, lines 526-552) -/

/-- Outcome of `finish_confirmation`. -/
inductive ConfOutcome
  | noCandidate
  | noQuorum
  | ropeEscape
  | executed
  deriving DecidableEq, Repr

/-- engine.py lines 538-540: the rope-break escape probability.  Floats are
modelled as exact rationals: base 1/10, raised to 1/2 for an executioner
nominee with unconsumed immunity, reduced by 1/5 with floor 1/20 when
another living executioner exists. -/
def rope_break_chance (targetRole : String) (immunity : Bool) (otherExec : Bool) : ℚ :=
  let c : ℚ := if targetRole == "executioner" && immunity then 1/2 else 1/10
  if otherExec then max (1/20) (c - 1/5) else c

/-- engine.py lines 539: is there another living executioner that is a
different player value than the nominee?  (`p != target` is dataclass field
equality.) -/
def otherLivingExecutioner (s : GameState) (target : Player) : Bool :=
  s.players.any (fun kv =>
    kv.2.role == "executioner" && kv.2.alive && !(decide (kv.2 = target)))

/-- engine.py `finish_confirmation` (lines 526-552).  `roll` replaces the
`random.random()` draw; `rng` feeds the ensuing `start_night` bot auto-fill.
`none` models the `KeyError` raised at line 533 when the pending candidate
is not in the roster. -/
def finish_confirmation (s : GameState) (roll : ℚ) (rng : Nat → Nat × Nat) :
    Option (GameState × ConfOutcome) :=
  match s.pending_candidate with
  | none => some (start_night s rng, .noCandidate)
  | some cand =>
    let yes := (s.confirmations.filter (·.2)).length
    let needed := s.alive_players.length / 2
    match dictGet s.players cand with
    | none => none
    | some target =>
      if yes ≤ needed then some (start_night s rng, .noQuorum)
      else
        let chance := rope_break_chance target.role s.executioner_immunity
          (otherLivingExecutioner s target)
        if roll < chance then
          let s := if target.role == "executioner"
                   then { s with executioner_immunity := false } else s
          some (start_night s rng, .ropeEscape)
        else
          let s :=
            { s with players := dictUpdate s.players cand (fun p => { p with alive := false }) }
          let s := (check_win s).1
          let s := if s.phase != "ended" then start_night s rng else s
          some (s, .executed)

/-! ### NightResolver (engine.py resolve_night, lines 310-399) -/

/-- Python `next((pid for pid, p in state.alive_players().items() if f p), None)`. -/
def firstAlive (s : GameState) (f : Player → Bool) : Option Nat :=
  ((s.alive_players.find? (fun kv => f kv.2)).map (·.1))

/-- engine.py line 316: the first living don with a truthy submitted target. -/
def donActing (s : GameState) : Option Nat :=
  firstAlive s (fun p => p.role == "don" && truthyNat p.night_action)

/-- engine.py line 317: the first living mafia with a truthy submitted target. -/
def mafiaActing (s : GameState) : Option Nat :=
  firstAlive s (fun p => p.role == "mafia" && truthyNat p.night_action)

/-- engine.py line 318: `don_pid or mafia_pid`. -/
def acting_killer (s : GameState) : Option Nat :=
  pyOr (donActing s) (mafiaActing s)

/-- engine.py lines 313-320: the initial kill list holds at most the one
target submitted by the acting killer. -/
def mafiaKillList (s : GameState) : List Nat :=
  match acting_killer s with
  | none => []
  | some k =>
    match (dictGet s.players k).bind (fun p => p.night_action) with
    | none => []
    | some t => [t]

/-- engine.py lines 322-331: the detective investigation.  `none` models the
`KeyError` raised at line 327 when the investigated target id is not in the
roster (the line 326 guard covers only the role lookup). -/
def detectiveStep (s : GameState) : Option GameState :=
  match firstAlive s (fun p => p.role == "detective") with
  | none => some s
  | some dp =>
    match (dictGet s.players dp).bind (fun p => p.night_action) with
    | none => some s
    | some t =>
      match dictGet s.players t with
      | none => none
      | some tp =>
        some { s with players := dictUpdate s.players dp (fun d =>
          { d with check_results :=
              d.check_results ++ [tp.name ++ ": " ++ roleLabel tp.role] }) }

/-- engine.py lines 333-339: the deputy reveal is a direct message only; the
state is unchanged, but an out-of-roster target raises a `KeyError`
(line 335). -/
def deputyStep (s : GameState) : Option GameState :=
  match firstAlive s (fun p => p.role == "deputy" && truthyNat p.night_action) with
  | none => some s
  | some dp =>
    match (dictGet s.players dp).bind (fun p => p.night_action) with
    | none => some s
    | some t => if dictMem s.players t then some s else none

/-- engine.py lines 341-349: the consigliere reveal is broadcast to the
mafia via direct messages only; an out-of-roster target raises a `KeyError`
(line 343). -/
def consigliereStep (s : GameState) : Option GameState :=
  match firstAlive s (fun p => p.role == "consigliere" && truthyNat p.night_action) with
  | none => some s
  | some cp =>
    match (dictGet s.players cp).bind (fun p => p.night_action) with
    | none => some s
    | some t => if dictMem s.players t then some s else none

/-- engine.py lines 351-360: the petrushka role swap; the replacement role
is a uniform draw (`rIdx`) from the enumeration minus `detective`. -/
def petrushkaStep (s : GameState) (rIdx : Nat) : GameState :=
  match firstAlive s (fun p => p.role == "petrushka" && truthyNat p.night_action) with
  | none => s
  | some pp =>
    match (dictGet s.players pp).bind (fun p => p.night_action) with
    | none => s
    | some t =>
      match dictGet s.players t with
      | none => s
      | some tp =>
        if tp.alive then
          let candidates := roleEnum.filter (fun r => r != "detective")
          { s with players := dictUpdate s.players t (fun p =>
              { p with role := candidates.getD (rIdx % candidates.length) "" }) }
        else s

/-- engine.py lines 362-368: the doctor heal; returns the updated state and
the saved list. -/
def doctorStep (s : GameState) : GameState × List Nat :=
  match firstAlive s (fun p => p.role == "doctor" && p.night_action.isSome) with
  | none => (s, [])
  | some dp =>
    match (dictGet s.players dp).bind (fun p => p.night_action) with
    | none => (s, [])
    | some t =>
      if t == dp then
        ({ s with players := dictUpdate s.players dp (fun p =>
            { p with self_heal_used := true }) }, [t])
      else (s, [t])

/-- engine.py lines 370-375: each living player with a consumed potato
charge and a submitted target adds the target on a successful coin flip
(`hits pid`); the success broadcast indexes the roster with the target id,
so an out-of-roster target raises a `KeyError` (line 374). -/
def potatoStep (s : GameState) (hits : Nat → Bool) (kills : List Nat) : Option (List Nat) :=
  s.alive_players.foldl (fun acc kv =>
    match acc with
    | none => none
    | some ks =>
      if kv.2.potato_used && kv.2.night_action.isSome then
        if hits kv.1 then
          match kv.2.night_action with
          | some t => if dictMem s.players t then some (ks ++ [t]) else none
          | none => some ks
        else some ks
      else some ks) (some kills)

/-- engine.py lines 376-383: deduplicate the kill list in first-occurrence
order, dropping healed targets. -/
def killsAfterHeal (kills saved : List Nat) : List Nat :=
  (kills.filter (fun v => !(saved.contains v))).foldl
    (fun acc v => if acc.contains v then acc else acc ++ [v]) []

/-- engine.py lines 385-391: apply the deaths; returns the updated state and
the pids actually killed (the `killed_names` report). -/
def applyKills (s : GameState) (final : List Nat) : GameState × List Nat :=
  final.foldl (fun acc v =>
    match dictGet acc.1.players v with
    | none => acc
    | some tp =>
      if tp.alive then
        ({ acc.1 with players := dictUpdate acc.1.players v (fun p =>
            { p with alive := false }) }, acc.2 ++ [v])
      else acc) (s, [])

/-- engine.py `resolve_night` (lines 310-399): the deterministic resolution
order — one mafia attack, investigations, role swap, heal, potato throws,
dedup and deaths, win check, then day.  `rPet` and `potHits` replace the
random draws; `none` models a raised `KeyError`.  Returns the new state and
the killed pids. -/
def resolve_night (s0 : GameState) (rPet : Nat) (potHits : Nat → Bool) :
    Option (GameState × List Nat) :=
  if s0.phase != "night" then some (s0, [])
  else
    let kills0 := mafiaKillList s0
    match detectiveStep s0 with
    | none => none
    | some s1 =>
      match deputyStep s1 with
      | none => none
      | some s2 =>
        match consigliereStep s2 with
        | none => none
        | some s3 =>
          let s4 := petrushkaStep s3 rPet
          let sv := doctorStep s4
          match potatoStep sv.1 potHits kills0 with
          | none => none
          | some kills =>
            let final := killsAfterHeal kills sv.2
            let sk := applyKills sv.1 final
            let s6 := (check_win sk.1).1
            let s7 := if s6.phase != "ended" then { s6 with phase := "day" } else s6
            some (s7, sk.2)

/-! ### Fixed random draws used by concrete scenarios -/

/-- A fixed bot random source (all draws zero). -/
def rngZero : Nat → Nat × Nat := fun _ => (0, 0)

/-- All potato coin flips fail. -/
def potNone : Nat → Bool := fun _ => false

/-! ### Generic lemmas about the dictionary embedding -/

theorem dictGet_cons_of_ne {hd : Nat × α} {tl : List (Nat × α)} {k : Nat}
    (h : hd.1 ≠ k) : dictGet (hd :: tl) k = dictGet tl k := by
  have hk : (hd.1 == k) = false := by simpa using h
  simp [dictGet, List.find?, hk]

theorem dictGet_dictUpdate_self (l : List (Nat × α)) (k : Nat) (f : α → α) :
    dictGet (dictUpdate l k f) k = (dictGet l k).map f := by
  induction l with
  | nil => rfl
  | cons hd tl ih =>
    by_cases h : hd.1 = k
    · simp [dictGet, dictUpdate, h]
    · have hb : (hd.1 == k) = false := by simpa using h
      have h1 : dictUpdate (hd :: tl) k f = hd :: dictUpdate tl k f := by
        simp only [dictUpdate, List.map_cons]
        rw [if_neg (by simp [hb])]
      rw [h1, dictGet_cons_of_ne h, dictGet_cons_of_ne h, ih]

theorem dictGet_mapVal (l : List (Nat × α)) (g : Nat → α → α) (k : Nat) :
    dictGet (l.map (fun kv => (kv.1, g kv.1 kv.2))) k = (dictGet l k).map (g k) := by
  induction l with
  | nil => rfl
  | cons hd tl ih =>
    by_cases h : hd.1 = k
    · subst h; simp [dictGet]
    · rw [List.map_cons, dictGet_cons_of_ne (by simpa using h), dictGet_cons_of_ne h, ih]

theorem dictGet_mapSnd (l : List (Nat × α)) (f : α → α) (k : Nat) :
    dictGet (l.map (fun kv => (kv.1, f kv.2))) k = (dictGet l k).map f :=
  dictGet_mapVal l (fun _ => f) k

theorem dictGet_of_mem_nodup {l : List (Nat × α)} {k : Nat} {v : α}
    (hmem : (k, v) ∈ l) (hn : (l.map (·.1)).Nodup) : dictGet l k = some v := by
  induction l with
  | nil => cases hmem
  | cons hd tl ih =>
    simp only [List.map_cons, List.nodup_cons] at hn
    rcases List.mem_cons.mp hmem with heq | htl
    · rw [← heq]; simp [dictGet]
    · have hk : hd.1 ≠ k := by
        intro h1
        exact hn.1 (h1 ▸ List.mem_map.mpr ⟨(k, v), htl, rfl⟩)
      rw [dictGet_cons_of_ne hk]
      exact ih htl hn.2

/-! ### Preservation lemmas for phase transitions -/

theorem auto_action_alive (p : Player) (pid : Nat) (ids : List Nat) (r1 r2 : Nat) :
    (auto_action p pid ids r1 r2).alive = p.alive := by
  simp only [auto_action]
  repeat' split
  all_goals rfl

theorem botFill_alive (ids : List Nat) (rng : Nat → Nat × Nat) (pid : Nat) (p : Player) :
    (botFill ids rng pid p).alive = p.alive := by
  unfold botFill
  split
  · exact auto_action_alive ..
  · rfl

theorem start_night_phase (s : GameState) (rng : Nat → Nat × Nat) :
    (start_night s rng).phase = "night" := rfl

theorem start_night_immunity (s : GameState) (rng : Nat → Nat × Nat) :
    (start_night s rng).executioner_immunity = s.executioner_immunity := rfl

theorem start_night_alive (s : GameState) (rng : Nat → Nat × Nat) (k : Nat) :
    ((dictGet (start_night s rng).players k).map (·.alive)) =
      ((dictGet s.players k).map (·.alive)) := by
  unfold start_night request_night_actions
  simp only [dictGet_mapVal, dictGet_mapSnd]
  cases dictGet s.players k with
  | none => rfl
  | some p => simp [botFill_alive, clearNightAction]

theorem getD_mod_mem (l : List α) (i : Nat) (d : α) (h : l ≠ []) :
    l.getD (i % l.length) d ∈ l := by
  have hl : 0 < l.length := List.length_pos.mpr h
  have hm : i % l.length < l.length := Nat.mod_lt _ hl
  rw [List.getD_eq_getElem _ _ hm]
  exact List.getElem_mem hm

/-! ### Concrete states used in scenarios, counterexamples and witnesses -/

/-- A roster of `n` living unnamed human-less participants. -/
def civRoster (n : Nat) : List (Nat × Player) :=
  (List.range n).map (fun i => (i + 1, { name := "P" }))

def c10_state : GameState :=
  { phase := "night"
    players := [(1, { name := "A", user_id := some 10, potato_ready := true }),
                (2, { name := "B", user_id := some 20 })] }

def c7_state : GameState :=
  { phase := "vote"
    players := [(1, { name := "A", user_id := some 10 }),
                (2, { name := "B", user_id := some 20, alive := false })] }

def c8_state : GameState :=
  { phase := "night"
    players := [(1, { name := "Doc", user_id := some 10, role := "doctor",
                      self_heal_used := true }),
                (2, { name := "B", user_id := some 20 })] }

def c2_state7a : GameState :=
  { phase := "vote"
    players := civRoster 7
    nominations := [(2, 1), (3, 1), (4, 1)] }

def c2_state7b : GameState :=
  { phase := "vote"
    players := civRoster 7
    nominations := [(2, 1), (3, 1), (4, 1), (5, 1)] }

def c2_state6 : GameState :=
  { phase := "vote"
    players := civRoster 6
    nominations := [(2, 1), (3, 1), (4, 1)] }

/-! ### C10: a skipped potato submission still consumes the charge -/

/-- C10: when a participant submits a potato action with the skip target
(negative target id), `handle_action` sets their `potato_used` flag to true
while setting their `night_action` to none, so the one-shot potato charge is
consumed even though no kill attempt will be made that night. -/
theorem c10_potato_skip_consumes_charge (s : GameState) (uid : Nat) (kv : Nat × Player)
    (hphase : s.phase = "night")
    (hfind : s.alive_players.find? (fun x => x.2.user_id == some uid) = some kv)
    (hnodup : (s.players.map (·.1)).Nodup) :
    dictGet (handle_action s uid "potato" (-1)).players kv.1 =
      some { kv.2 with night_action := none, potato_used := true } := by
  have hmem : kv ∈ s.players := (List.mem_filter.mp (List.mem_of_find?_eq_some hfind)).1
  have hget : dictGet s.players kv.1 = some kv.2 :=
    dictGet_of_mem_nodup (by simpa using hmem) hnodup
  unfold handle_action
  rw [hfind]
  simp only [hphase]
  rw [if_neg (by simp)]
  rw [dictGet_dictUpdate_self, hget]
  rfl

theorem c10_witness :
    dictGet (handle_action c10_state 10 "potato" (-1)).players 1 =
      some { name := "A", user_id := some 10, potato_ready := true,
             night_action := none, potato_used := true } :=
  c10_potato_skip_consumes_charge c10_state 10
    (1, { name := "A", user_id := some 10, potato_ready := true })
    rfl (by decide) (by decide)

/-! ### C7: stale or ineligible events -/

/-- C7 counterexample: in the vote phase the open yes/no poll records a
ballot from user 20 even though that user's participant is dead, mutating
the vote ledger; the claim states that any vote from a dead participant
leaves the session state unchanged. -/
theorem c7_counterexample :
    ((dictGet c7_state.players 2).map (·.alive) = some false) ∧
    ((dictGet c7_state.players 2).map (·.user_id) = some (some 20)) ∧
    (vote_callback c7_state 20 true).vote_yes_no = [(20, true)] ∧
    vote_callback c7_state 20 true ≠ c7_state := by decide

/-- C7 (amended): action submissions, nominations and confirmations that
arrive out of phase or from an ineligible actor (dead, not in the roster,
or the pending candidate) are silent no-ops, and the open yes/no vote
ignores out-of-phase ballots; but an in-phase yes/no ballot is recorded for
any user id without an eligibility check. -/
theorem c7_stale_events_ignored :
    (∀ s uid role target, s.phase ≠ "night" → handle_action s uid role target = s) ∧
    (∀ s uid role target,
      s.alive_players.find? (fun kv => kv.2.user_id == some uid) = none →
      handle_action s uid role target = s) ∧
    (∀ s uid b, s.phase ≠ "vote" → vote_callback s uid b = s) ∧
    (∀ s uid target, s.phase ≠ "vote" → handle_nomination s uid target = s) ∧
    (∀ s uid target,
      s.alive_players.find? (fun kv => kv.2.user_id == some uid) = none →
      handle_nomination s uid target = s) ∧
    (∀ s uid b, s.phase ≠ "vote" → handle_confirmation s uid b = s) ∧
    (∀ s uid b,
      s.alive_players.find? (fun kv =>
        kv.2.user_id == some uid && !(decide (some kv.1 = s.pending_candidate))) = none →
      handle_confirmation s uid b = s) ∧
    (∀ s uid b, s.phase = "vote" →
      vote_callback s uid b = { s with vote_yes_no := dictSet s.vote_yes_no uid b }) := by
  refine ⟨?_, ?_, ?_, ?_, ?_, ?_, ?_, ?_⟩
  · intro s uid role target h
    have hb : (s.phase != "night") = true := by simpa [bne_iff_ne] using h
    unfold handle_action
    cases s.alive_players.find? (fun kv => kv.2.user_id == some uid) with
    | none => rfl
    | some kv => simp [hb]
  · intro s uid role target hf
    unfold handle_action
    simp only [hf]
  · intro s uid b h
    unfold vote_callback
    rw [if_pos (by simpa [bne_iff_ne] using h)]
  · intro s uid target h
    have hb : (s.phase == "vote") = false := by simpa using h
    unfold handle_nomination
    cases s.alive_players.find? (fun kv => kv.2.user_id == some uid) with
    | none => rfl
    | some kv => simp [hb]
  · intro s uid target hf
    unfold handle_nomination
    simp only [hf]
  · intro s uid b h
    unfold handle_confirmation
    rw [if_pos (by simpa [bne_iff_ne] using h)]
  · intro s uid b hf
    unfold handle_confirmation
    by_cases hp : (s.phase != "vote") = true
    · rw [if_pos hp]
    · rw [if_neg hp]
      simp only [hf]
  · intro s uid b h
    unfold vote_callback
    rw [if_neg (by simp [h])]

theorem c7_witness :
    handle_action c7_state 10 "doctor" 2 = c7_state ∧
    handle_nomination c10_state 10 3 = c10_state ∧
    handle_confirmation c10_state 10 true = c10_state :=
  ⟨c7_stale_events_ignored.1 c7_state 10 "doctor" 2 (by decide),
    c7_stale_events_ignored.2.2.2.1 c10_state 10 3 (by decide),
    c7_stale_events_ignored.2.2.2.2.2.1 c10_state 10 true (by decide)⟩

/-! ### C8: doctor heal rules -/

theorem handle_action_records (s : GameState) (uid : Nat) (role : String) (target : Int)
    (kv : Nat × Player)
    (hphase : s.phase = "night")
    (hfind : s.alive_players.find? (fun x => x.2.user_id == some uid) = some kv)
    (hnodup : (s.players.map (·.1)).Nodup)
    (hrole : (role == "potato") = false)
    (ht : ¬target < 0) :
    dictGet (handle_action s uid role target).players kv.1 =
      some { kv.2 with night_action := some target.toNat } := by
  have hmem : kv ∈ s.players := (List.mem_filter.mp (List.mem_of_find?_eq_some hfind)).1
  have hget : dictGet s.players kv.1 = some kv.2 :=
    dictGet_of_mem_nodup (by simpa using hmem) hnodup
  unfold handle_action
  rw [hfind]
  simp only [hphase]
  rw [if_neg (by simp)]
  rw [dictGet_dictUpdate_self, hget]
  simp [ht, hrole]

/-- C8 counterexample: the doctor of `c8_state` has already consumed the
one-time self-heal (`self_heal_used = true`), yet a fresh human heal
submission targeting the doctor themself is accepted verbatim: the recorded
night action is the doctor, not another living target. -/
theorem c8_counterexample :
    ((dictGet c8_state.players 1).map (·.self_heal_used) = some true) ∧
    ((dictGet c8_state.players 1).map (·.role) = some "doctor") ∧
    ((dictGet (handle_action c8_state 10 "doctor" 1).players 1).map (·.night_action)
      = some (some 1)) := by decide

/-- C8 (amended): healing the same target in different rounds is permitted
(human heal submissions are recorded without any validation), and a bot
doctor never targets itself because its candidate pool excludes itself, so
a bot never repeats a self-heal; but a human doctor's submission is not
checked against `selfHealUsed`: `handle_action` records any living doctor's
target, including the doctor themself, regardless of the flag. -/
theorem c8_doctor_heal_rules :
    (∀ (p : Player) (pid : Nat) (ids : List Nat) (r1 r2 : Nat),
      p.role = "doctor" → ids.filter (fun i => i != pid) ≠ [] →
      ∃ t, t ∈ ids.filter (fun i => i != pid) ∧ t ≠ pid ∧
        auto_action p pid ids r1 r2 = { p with night_action := some t }) ∧
    (∀ (s : GameState) (uid : Nat) (target : Int) (kv : Nat × Player),
      s.phase = "night" →
      s.alive_players.find? (fun x => x.2.user_id == some uid) = some kv →
      (s.players.map (·.1)).Nodup → ¬target < 0 →
      dictGet (handle_action s uid "doctor" target).players kv.1 =
        some { kv.2 with night_action := some target.toNat }) := by
  constructor
  · intro p pid ids r1 r2 hrole hne
    have hmem : (ids.filter (fun i => i != pid)).getD
        (r1 % (ids.filter (fun i => i != pid)).length) 0 ∈ ids.filter (fun i => i != pid) :=
      getD_mod_mem _ _ _ hne
    have hnp : (ids.filter (fun i => i != pid)).getD
        (r1 % (ids.filter (fun i => i != pid)).length) 0 ≠ pid := by
      have := (List.mem_filter.mp hmem).2
      simpa using this
    refine ⟨_, hmem, hnp, ?_⟩
    have hie : (ids.filter (fun i => i != pid)).isEmpty = false := by
      simpa [List.isEmpty_iff] using hne
    have hcp : ((ids.filter (fun i => i != pid)).getD
        (r1 % (ids.filter (fun i => i != pid)).length) 0 == pid) = false := by
      simpa using hnp
    have hnp2 : (ids.filter (fun i => i != pid))[r1 %
        (ids.filter (fun i => i != pid)).length]?.getD 0 ≠ pid := by
      simpa using hnp
    simp only [auto_action, hrole]
    rw [if_neg (by simp [hie])]
    rw [if_neg (by decide)]
    rw [if_pos (by decide)]
    rw [if_neg (by simp [hnp2])]
    rw [if_neg (by simp [hnp2])]
    rw [hrole]
  · intro s uid target kv hphase hfind hnodup ht
    exact handle_action_records s uid "doctor" target kv hphase hfind hnodup (by decide) ht

theorem c8_witness :
    ((auto_action { name := "D", role := "doctor" } 1 [1, 2, 3] 0 0).night_action ≠ some 1) ∧
    dictGet (handle_action c8_state 10 "doctor" 2).players 1 =
      some { name := "Doc", user_id := some 10, role := "doctor",
             self_heal_used := true, night_action := some 2 } := by
  constructor
  · obtain ⟨t, hmem, hnp, heq⟩ :=
      c8_doctor_heal_rules.1 { name := "D", role := "doctor" } 1 [1, 2, 3] 0 0 rfl (by decide)
    rw [heq]
    intro hcon
    exact hnp (by simpa using hcon)
  · exact
      c8_doctor_heal_rules.2 c8_state 10 2
        (1, { name := "Doc", user_id := some 10, role := "doctor", self_heal_used := true })
        rfl (by decide) (by decide) (by decide)

/-! ### C2: nomination majority threshold -/

/-- C2 counterexample: with 6 living participants the code's threshold is
`(6 + 1) / 2 = 3`, so a candidate with 3 nominations triggers the
confirmation sub-phase even though 3 is strictly below the claimed majority
threshold `6 / 2 + 1 = 4`. -/
theorem c2_counterexample :
    c2_state6.alive_players.length = 6 ∧
    nomCounts (c2_state6.nominations.map (·.2)) = [(1, 3)] ∧
    (pick_nomination c2_state6 rngZero).2 = NomOutcome.confirm 1 ∧
    ¬(c2_state6.alive_players.length / 2 + 1 ≤ 3) := by decide

/-- C2 (amended): the winning candidate triggers the confirmation sub-phase
iff their nomination count reaches `(aliveCount + 1) / 2` (the ceiling of
half, which equals `floor(aliveCount/2) + 1` only for odd alive counts);
otherwise the session returns to night.  In particular, with 7 alive a
candidate with 3 nominations sends the session back to night and one with 4
triggers confirmation. -/
theorem c2_nomination_threshold (s : GameState) (rng : Nat → Nat × Nat)
    (cand votes : Nat)
    (hmax : maxByCount (nomCounts (s.nominations.map (·.2))) = some (cand, votes)) :
    (((pick_nomination s rng).2 = NomOutcome.confirm cand ↔
        (s.alive_players.length + 1) / 2 ≤ votes) ∧
      ((pick_nomination s rng).2 = NomOutcome.toNight ↔
        votes < (s.alive_players.length + 1) / 2)) ∧
    (pick_nomination c2_state7a rngZero).2 = NomOutcome.toNight ∧
    (pick_nomination c2_state7b rngZero).2 = NomOutcome.confirm 1 := by
  refine ⟨?_, by decide, by decide⟩
  simp only [pick_nomination, hmax]
  by_cases h : votes < (s.alive_players.length + 1) / 2
  · rw [if_pos h]
    simp
    all_goals omega
  · rw [if_neg h]
    simp
    all_goals omega

theorem c2_witness :
    (pick_nomination c2_state7b rngZero).2 = NomOutcome.confirm 1 :=
  (c2_nomination_threshold c2_state7b rngZero 1 4 (by decide)).1.1.mpr (by decide)

/-! ### C3: rope-break escape probability -/

/-- The rope-break probability as the spec words it: the base value 1/10,
doubled for an executioner nominee with unconsumed immunity, reduced by 1/5
with floor 1/20 when another living executioner exists.  Written for
comparison with the source-derived `rope_break_chance`. -/
def rope_break_chance_spec (targetRole : String) (immunity : Bool) (otherExec : Bool) : ℚ :=
  let c : ℚ := if targetRole == "executioner" && immunity then 2 * (1/10) else 1/10
  if otherExec then max (1/20) (c - 1/5) else c

/-- C3 counterexample: for an executioner nominee with unconsumed immunity
and no other living executioner, the code uses probability 1/2, which is
five times the base 1/10, not double as the claim states. -/
theorem c3_counterexample :
    rope_break_chance "executioner" true false = 1/2 ∧
    rope_break_chance_spec "executioner" true false = 1/5 ∧
    rope_break_chance "executioner" true false ≠
      rope_break_chance_spec "executioner" true false ∧
    rope_break_chance "executioner" true false ≠
      2 * rope_break_chance "civil" true false := by
  have hce : ¬(("civil" : String) = "executioner") := by decide
  norm_num [rope_break_chance, rope_break_chance_spec, hce]

/-- C3 (amended): the escape probability starts at the base 1/10, is raised
to 1/2 (five times the base, not doubled) when the nominee is an
executioner and the session's one-time immunity is unconsumed, and is
reduced by 1/5 with a lower floor of 1/20 when another living executioner
exists besides the nominee. -/
theorem c3_rope_break_chance (role : String) (imm other : Bool) :
    (rope_break_chance role imm other =
      (if role == "executioner" && imm then (if other then 3/10 else 1/2)
       else (if other then 1/20 else 1/10))) ∧
    rope_break_chance "executioner" true false =
      5 * rope_break_chance "civil" true false := by
  constructor
  · unfold rope_break_chance
    by_cases h : (role == "executioner" && imm) = true
    · rw [if_pos h, if_pos h]
      cases other
      · rfl
      · show max (1/20 : ℚ) (1/2 - 1/5) = 3/10
        norm_num
    · rw [if_neg h, if_neg h]
      cases other
      · rfl
      · show max (1/20 : ℚ) (1/10 - 1/5) = 1/20
        norm_num
  · have hce : ¬(("civil" : String) = "executioner") := by decide
    norm_num [rope_break_chance, hce]

/-! ### C6: confirmation quorum and rope-break escape -/

/-- C6: in the confirmation phase the nominee survives without an execution
attempt and the session returns to night iff the yes-count is at most
`floor(aliveCount / 2)`; otherwise execution proceeds unless the rope-break
roll succeeds, and on a successful roll the nominee stays alive, the
session returns to night, and for an executioner nominee the session's
immunity flag is marked consumed. -/
theorem c6_confirmation (s : GameState) (roll : ℚ) (rng : Nat → Nat × Nat)
    (cand : Nat) (target : Player)
    (hc : s.pending_candidate = some cand)
    (ht : dictGet s.players cand = some target)
    (halive : target.alive = true) :
    ((finish_confirmation s roll rng).map (·.2) = some ConfOutcome.noQuorum ↔
      (s.confirmations.filter (·.2)).length ≤ s.alive_players.length / 2) ∧
    ((s.confirmations.filter (·.2)).length ≤ s.alive_players.length / 2 →
      (finish_confirmation s roll rng).map (fun x => x.1.phase) = some "night" ∧
      ((finish_confirmation s roll rng).bind
        (fun x => dictGet x.1.players cand)).map (·.alive) = some true) ∧
    (s.alive_players.length / 2 < (s.confirmations.filter (·.2)).length →
      ((finish_confirmation s roll rng).map (·.2) = some ConfOutcome.ropeEscape ↔
        roll < rope_break_chance target.role s.executioner_immunity
          (otherLivingExecutioner s target))) ∧
    (s.alive_players.length / 2 < (s.confirmations.filter (·.2)).length →
      roll < rope_break_chance target.role s.executioner_immunity
        (otherLivingExecutioner s target) →
      (finish_confirmation s roll rng).map (fun x => x.1.phase) = some "night" ∧
      ((finish_confirmation s roll rng).bind
        (fun x => dictGet x.1.players cand)).map (·.alive) = some true ∧
      (target.role = "executioner" →
        (finish_confirmation s roll rng).map (fun x => x.1.executioner_immunity) =
          some false)) := by
  simp only [finish_confirmation, hc, ht]
  by_cases hq : (s.confirmations.filter (·.2)).length ≤ s.alive_players.length / 2
  · rw [if_pos hq]
    refine ⟨by simp [hq], fun _ => ⟨by simp [start_night_phase], ?_⟩,
      fun hlt => absurd hq (by omega), fun hlt => absurd hq (by omega)⟩
    simp only [Option.some_bind, Option.map_some]
    rw [start_night_alive, ht]
    simp [halive]
  · rw [if_neg hq]
    by_cases hr : roll < rope_break_chance target.role s.executioner_immunity
        (otherLivingExecutioner s target)
    · rw [if_pos hr]
      refine ⟨by simp [hq], fun h => absurd h hq, fun _ => by simp [hr], fun _ _ => ?_⟩
      refine ⟨by simp [start_night_phase], ?_, ?_⟩
      · simp only [Option.some_bind, Option.map_some]
        rw [start_night_alive]
        by_cases he : (target.role == "executioner") = true
        · rw [if_pos he]
          have hpl : ({ s with executioner_immunity := false } : GameState).players
              = s.players := rfl
          rw [hpl, ht]
          simp [halive]
        · rw [if_neg he, ht]
          simp [halive]
      · intro hrole
        have he : (target.role == "executioner") = true := by simp [hrole]
        rw [if_pos he]
        simp [start_night_immunity]
    · rw [if_neg hr]
      exact ⟨by simp [hq], fun h => absurd h hq, fun _ => by simp [hr],
        fun _ h => absurd h hr⟩

def c6_target : Player := { name := "Ex", role := "executioner" }

def c6_state : GameState :=
  { phase := "vote"
    players := civRoster 6 ++ [(7, c6_target)]
    pending_candidate := some 7
    confirmations := [(1, true), (2, true), (3, true), (4, true), (5, false), (6, false)] }

theorem c6_witness :
    (finish_confirmation c6_state 0 rngZero).map (·.2) = some ConfOutcome.ropeEscape ∧
    (finish_confirmation c6_state 0 rngZero).map (fun x => x.1.phase) = some "night" ∧
    (finish_confirmation c6_state 0 rngZero).map (fun x => x.1.executioner_immunity) =
      some false := by
  have h := c6_confirmation c6_state 0 rngZero 7 c6_target rfl (by decide) rfl
  have hlt : c6_state.alive_players.length / 2 <
      (c6_state.confirmations.filter (·.2)).length := by decide
  have hroll : (0 : ℚ) < rope_break_chance "executioner" true false := by
    norm_num [rope_break_chance]
  obtain ⟨h1, h2, h3, h4⟩ := h
  have h5 := h4 hlt hroll
  exact ⟨(h3 hlt).mpr hroll, h5.1, h5.2.2 rfl⟩

/-! ### C5: win evaluation and point awards -/

/-- C5: if the mafia-aligned alive count is 0 then town wins; otherwise if
it is at least the town-aligned alive count then mafia wins; otherwise no
winner is declared and the session continues unchanged.  On a winning
outcome the phase becomes ended and every human participant whose faction
matches the winning side appears in the issued point awards with the
winning delta. -/
theorem c5_win_evaluation (s : GameState) :
    (s.mafia_side.length = 0 →
      (check_win s).2 = some "civil" ∧ (check_win s).1.phase = "ended" ∧
      (∀ kv ∈ s.players, kv.2.is_bot = false → truthyNat kv.2.user_id = true →
        mafiaRoles.contains kv.2.role = false →
        (kv.2.user_id.getD 0, POINTS_WIN, true) ∈ award_points s true)) ∧
    (s.mafia_side.length ≠ 0 → s.civil_side.length ≤ s.mafia_side.length →
      (check_win s).2 = some "mafia" ∧ (check_win s).1.phase = "ended" ∧
      (∀ kv ∈ s.players, kv.2.is_bot = false → truthyNat kv.2.user_id = true →
        mafiaRoles.contains kv.2.role = true →
        (kv.2.user_id.getD 0, POINTS_WIN, true) ∈ award_points s false)) ∧
    (s.mafia_side.length ≠ 0 → s.mafia_side.length < s.civil_side.length →
      (check_win s).2 = none ∧ (check_win s).1 = s) := by
  refine ⟨fun h0 => ?_, fun hne hle => ?_, fun hne hlt => ?_⟩
  · have hb : (s.mafia_side.length == 0) = true := by simpa using h0
    refine ⟨by simp [check_win, hb], by simp [check_win, hb], ?_⟩
    intro kv hmem hbot huid hrole
    unfold award_points
    refine List.mem_filterMap.mpr ⟨kv, hmem, ?_⟩
    rw [if_neg (by simp [hbot, huid])]
    have hrole2 : kv.2.role ∉ mafiaRoles := by simpa using hrole
    simp [hrole2]
  · have hb : (s.mafia_side.length == 0) = false := by simpa using hne
    refine ⟨by simp [check_win, hb, hle], by simp [check_win, hb, hle], ?_⟩
    intro kv hmem hbot huid hrole
    unfold award_points
    refine List.mem_filterMap.mpr ⟨kv, hmem, ?_⟩
    rw [if_neg (by simp [hbot, huid])]
    have hrole2 : kv.2.role ∈ mafiaRoles := by simpa using hrole
    simp [hrole2]
  · have hb : (s.mafia_side.length == 0) = false := by simpa using hne
    have hge : ¬(s.mafia_side.length ≥ s.civil_side.length) := by omega
    constructor
    · simp [check_win, hb, hge]
    · simp [check_win, hb, hge]

def c5_state : GameState :=
  { phase := "day"
    players := [(1, { name := "H", user_id := some 10, role := "civil" }),
                (2, { name := "M", role := "don", alive := false })] }

theorem c5_witness :
    (check_win c5_state).2 = some "civil" ∧ (check_win c5_state).1.phase = "ended" ∧
    ((10 : Nat), POINTS_WIN, true) ∈ award_points c5_state true := by
  have h := (c5_win_evaluation c5_state).1 (by decide)
  exact ⟨h.1, h.2.1,
    h.2.2 (1, { name := "H", user_id := some 10, role := "civil" })
      (by decide) (by decide) (by decide) (by decide)⟩

/-! ### C4: night resolution -/

theorem mem_dedup_foldl (l : List Nat) (acc : List Nat) (x : Nat)
    (h : x ∈ l.foldl (fun acc v => if acc.contains v then acc else acc ++ [v]) acc) :
    x ∈ acc ∨ x ∈ l := by
  induction l generalizing acc with
  | nil => exact Or.inl h
  | cons hd tl ih =>
    simp only [List.foldl_cons] at h
    rcases ih _ h with hacc | htl
    · by_cases hc : (acc.contains hd) = true
      · rw [if_pos hc] at hacc
        exact Or.inl hacc
      · rw [if_neg hc] at hacc
        rcases List.mem_append.mp hacc with h1 | h2
        · exact Or.inl h1
        · simp only [List.mem_singleton] at h2
          subst h2
          exact Or.inr (by simp)
    · exact Or.inr (List.mem_cons_of_mem _ htl)

def c4_state : GameState :=
  { phase := "night"
    players := [(1, { name := "DonPlayer", role := "don", night_action := some 4 }),
                (2, { name := "DocPlayer", role := "doctor", night_action := some 4 }),
                (3, { name := "DetPlayer", role := "detective", night_action := some 1 }),
                (4, { name := "CivA" }),
                (5, { name := "CivB" })] }

/-- C4: night resolution collects at most one lethal attack, preferring the
don's submitted target; the doctor's heal removes the healed target from the
kill set; and on the concrete 5-player roster (don, doctor, detective, two
civils) with don and doctor both targeting civil#1 (pid 4) and the detective
targeting the don, civil#1 survives, the detective's result records the
don's role, nobody dies and the session moves to day. -/
theorem c4_night_resolution :
    (∀ s : GameState, (mafiaKillList s).length ≤ 1) ∧
    (∀ (s : GameState) (pid : Nat), donActing s = some pid → pid ≠ 0 →
      acting_killer s = some pid) ∧
    (∀ (kills saved : List Nat) (v : Nat), v ∈ saved → v ∉ killsAfterHeal kills saved) ∧
    (resolve_night c4_state 0 potNone).map (·.2) = some [] ∧
    (resolve_night c4_state 0 potNone).map (fun x => x.1.phase) = some "day" ∧
    ((resolve_night c4_state 0 potNone).bind
      (fun x => dictGet x.1.players 4)).map (·.alive) = some true ∧
    ((resolve_night c4_state 0 potNone).bind
      (fun x => dictGet x.1.players 3)).map (·.check_results) = some ["DonPlayer: Дон"] ∧
    (resolve_night c4_state 0 potNone).map
      (fun x => x.1.players.all (fun kv => kv.2.alive)) = some true := by
  refine ⟨?_, ?_, ?_, by decide, by decide, by decide, by decide, by decide⟩
  · intro s
    unfold mafiaKillList
    cases acting_killer s with
    | none => simp
    | some k =>
      cases h2 : (dictGet s.players k).bind (fun p => p.night_action) <;> simp [h2]
  · intro s pid h hnz
    unfold acting_killer pyOr
    rw [h]
    simp [truthyNat, hnz]
  · intro kills saved v hv hmem
    unfold killsAfterHeal at hmem
    rcases mem_dedup_foldl _ _ _ hmem with h1 | h2
    · cases h1
    · have := (List.mem_filter.mp h2).2
      simp at this
      exact this hv

theorem c4_witness :
    acting_killer c4_state = some 1 ∧ (mafiaKillList c4_state).length ≤ 1 ∧
    (4 : Nat) ∉ killsAfterHeal [4] [4] :=
  ⟨c4_night_resolution.2.1 c4_state 1 (by decide) (by decide),
    c4_night_resolution.1 c4_state,
    c4_night_resolution.2.2.1 [4] [4] 4 (by decide)⟩

/-! ### Role-pool lemmas for C1 and C9 -/

/-- Closed form of the role pool: the fixed non-civil prefix followed by the
civil padding. -/
theorem buildRoles_eq (n : Nat) :
    buildRoles n =
      (if MAFIA_EXTRA_THRESHOLD ≤ n
        then ["don", "mafia", "doctor", "detective", "executioner",
              "deputy", "consigliere", "mayor", "petrushka"]
        else ["don", "doctor", "detective", "executioner",
              "deputy", "consigliere", "mayor", "petrushka"]) ++
      List.replicate (n - (if MAFIA_EXTRA_THRESHOLD ≤ n then 9 else 8)) "civil" := by
  by_cases h : MAFIA_EXTRA_THRESHOLD ≤ n <;>
    simp [buildRoles, h, ALLOW_DEPUTY, ALLOW_CONSILGIERE, ALLOW_MAYOR, ALLOW_PETRUSHKA]

theorem buildRoles_length (n : Nat) :
    (buildRoles n).length = max (if MAFIA_EXTRA_THRESHOLD ≤ n then 9 else 8) n := by
  rw [buildRoles_eq]
  by_cases h : MAFIA_EXTRA_THRESHOLD ≤ n <;> simp [h] <;> omega

theorem le_buildRoles_length (n : Nat) : n ≤ (buildRoles n).length := by
  rw [buildRoles_length]
  exact le_max_right _ n

theorem buildRoles_subset (n : Nat) : ∀ r ∈ buildRoles n, r ∈ roleEnum := by
  intro r hr
  rw [buildRoles_eq] at hr
  rcases List.mem_append.mp hr with h1 | h2
  · by_cases h : MAFIA_EXTRA_THRESHOLD ≤ n
    · rw [if_pos h] at h1
      have hall : ∀ x ∈ ["don", "mafia", "doctor", "detective", "executioner",
          "deputy", "consigliere", "mayor", "petrushka"], x ∈ roleEnum := by decide
      exact hall r h1
    · rw [if_neg h] at h1
      have hall : ∀ x ∈ ["don", "doctor", "detective", "executioner",
          "deputy", "consigliere", "mayor", "petrushka"], x ∈ roleEnum := by decide
      exact hall r h1
  · rw [List.eq_of_mem_replicate h2]
    decide

theorem detective_mem_buildRoles (n : Nat) : "detective" ∈ buildRoles n := by
  rw [buildRoles_eq]
  refine List.mem_append_left _ ?_
  by_cases h : MAFIA_EXTRA_THRESHOLD ≤ n
  · rw [if_pos h]; decide
  · rw [if_neg h]; decide

theorem detective_count_buildRoles (n : Nat) : (buildRoles n).count "detective" = 1 := by
  rw [buildRoles_eq]
  rw [List.count_append]
  have hrep : (List.replicate (n - (if MAFIA_EXTRA_THRESHOLD ≤ n then 9 else 8))
      "civil").count "detective" = 0 := by
    rw [List.count_replicate]
    rw [if_neg (by decide)]
  rw [hrep]
  by_cases h : MAFIA_EXTRA_THRESHOLD ≤ n
  · rw [if_pos h]; decide
  · rw [if_neg h]; decide

theorem mafia_mem_buildRoles (n : Nat) :
    "mafia" ∈ buildRoles n ↔ MAFIA_EXTRA_THRESHOLD ≤ n := by
  rw [buildRoles_eq]
  by_cases h : MAFIA_EXTRA_THRESHOLD ≤ n
  · rw [if_pos h]
    simp only [h, iff_true]
    exact List.mem_append_left _ (by decide)
  · rw [if_neg h]
    simp only [h, iff_false]
    intro hm
    rcases List.mem_append.mp hm with h1 | h2
    · revert h1; decide
    · have := List.eq_of_mem_replicate h2
      simp at this

theorem civil_count_buildRoles (n : Nat) :
    (buildRoles n).count "civil" =
      n - (if MAFIA_EXTRA_THRESHOLD ≤ n then 9 else 8) := by
  by_cases h : MAFIA_EXTRA_THRESHOLD ≤ n
  · have h9 : List.count "civil" ["don", "mafia", "doctor", "detective", "executioner",
        "deputy", "consigliere", "mayor", "petrushka"] = 0 := by decide
    simp [buildRoles_eq, h, List.count_append, List.count_replicate, h9]
  · have h8 : List.count "civil" ["don", "doctor", "detective", "executioner",
        "deputy", "consigliere", "mayor", "petrushka"] = 0 := by decide
    simp [buildRoles_eq, h, List.count_append, List.count_replicate, h8]

/-! ### Swap lemmas -/

theorem length_listSwap (l : List String) (i j : Nat) :
    (listSwap l i j).length = l.length := by
  simp [listSwap]

theorem mem_listSwap {l : List String} {i j : Nat} (hi : i < l.length) (hj : j < l.length)
    {x : String} (hx : x ∈ listSwap l i j) : x ∈ l := by
  unfold listSwap at hx
  rcases List.mem_or_eq_of_mem_set hx with hx1 | hxi
  · rcases List.mem_or_eq_of_mem_set hx1 with hx2 | hxj
    · exact hx2
    · rw [hxj, List.getD_eq_getElem _ _ hj]
      exact List.getElem_mem hj
  · rw [hxi, List.getD_eq_getElem _ _ hi]
    exact List.getElem_mem hi

theorem listSwap_getD_at_j (l : List String) (i j : Nat) (hi : i < l.length)
    (hj : j < l.length) : (listSwap l i j).getD j "" = l.getD i "" := by
  unfold listSwap
  rw [List.getD_eq_getElem _ _ (by simpa using hj)]
  rw [List.getElem_set_self]

theorem listSwap_getD_at_i (l : List String) (i j : Nat) (hi : i < l.length)
    (hj : j < l.length) (hij : i ≠ j) : (listSwap l i j).getD i "" = l.getD j "" := by
  unfold listSwap
  rw [List.getD_eq_getElem _ _ (by simpa using hi)]
  rw [List.getElem_set_ne (Ne.symm hij)]
  rw [List.getElem_set_self]

theorem listSwap_getD_other (l : List String) (i j k : Nat) (hk : k < l.length)
    (hki : k ≠ i) (hkj : k ≠ j) : (listSwap l i j).getD k "" = l.getD k "" := by
  unfold listSwap
  rw [List.getD_eq_getElem _ _ (by simpa using hk)]
  rw [List.getElem_set_ne (Ne.symm hkj)]
  rw [List.getElem_set_ne (Ne.symm hki)]
  rw [List.getD_eq_getElem _ _ hk]

theorem getD_eq_of_count_one {l : List String} {a : String} (hc : l.count a = 1)
    {i j : Nat} (hi : i < l.length) (hj : j < l.length)
    (hia : l.getD i "" = a) (hja : l.getD j "" = a) : i = j := by
  by_contra hne
  have hdup : l.Duplicate a := by
    rw [List.duplicate_iff_exists_distinct_get]
    rcases Nat.lt_or_ge i j with hlt | hge
    · refine ⟨⟨i, hi⟩, ⟨j, hj⟩, by simpa using hlt, ?_, ?_⟩
      · rw [List.get_eq_getElem, ← List.getD_eq_getElem _ _ hi]
        exact hia.symm
      · rw [List.get_eq_getElem, ← List.getD_eq_getElem _ _ hj]
        exact hja.symm
    · have hlt2 : j < i := lt_of_le_of_ne hge (fun he => hne he.symm)
      refine ⟨⟨j, hj⟩, ⟨i, hi⟩, by simpa using hlt2, ?_, ?_⟩
      · rw [List.get_eq_getElem, ← List.getD_eq_getElem _ _ hj]
        exact hja.symm
      · rw [List.get_eq_getElem, ← List.getD_eq_getElem _ _ hi]
        exact hia.symm
  have := List.duplicate_iff_two_le_count.mp hdup
  omega

/-! ### Pointwise behaviour of the role assigner -/

instance : Inhabited Player := ⟨{ name := "" }⟩

theorem length_detectiveSwap (roles : List String) (players : List (Nat × Player))
    (hc : Nat) : (detectiveSwap roles players hc).length = roles.length := by
  simp only [detectiveSwap]
  split
  · exact length_listSwap ..
  · rfl

theorem mem_detectiveSwap {roles : List String} {players : List (Nat × Player)} {hc : Nat}
    (hlen : players.length ≤ roles.length)
    {x : String} (hx : x ∈ detectiveSwap roles players hc) : x ∈ roles := by
  unfold detectiveSwap at hx
  by_cases hcond : (roles.contains "detective" &&
      !((players.filter (fun kv => !kv.2.is_bot)).map (·.1)).isEmpty) = true
  · rw [if_pos hcond] at hx
    have hpair := hcond
    rw [Bool.and_eq_true] at hpair
    rcases hpair with ⟨hdet, hne⟩
    have hdet2 : "detective" ∈ roles := List.mem_of_elem_eq_true hdet
    have hne2 : ((players.filter (fun kv => !kv.2.is_bot)).map (·.1)) ≠ [] := by
      intro he
      rw [he] at hne
      simp at hne
    have hdi : roles.indexOf "detective" < roles.length :=
      List.indexOf_lt_length.mpr hdet2
    have htp : ((players.filter (fun kv => !kv.2.is_bot)).map (·.1)).getD
        (hc % ((players.filter (fun kv => !kv.2.is_bot)).map (·.1)).length) 0 ∈
        ((players.filter (fun kv => !kv.2.is_bot)).map (·.1)) :=
      getD_mod_mem _ _ _ hne2
    have htp2 : ((players.filter (fun kv => !kv.2.is_bot)).map (·.1)).getD
        (hc % ((players.filter (fun kv => !kv.2.is_bot)).map (·.1)).length) 0 ∈
        players.map (·.1) := by
      rcases List.mem_map.mp htp with ⟨kv, hkv, hkv2⟩
      exact List.mem_map.mpr ⟨kv, List.mem_of_mem_filter hkv, hkv2⟩
    have hsi : (players.map (·.1)).indexOf
        (((players.filter (fun kv => !kv.2.is_bot)).map (·.1)).getD
          (hc % ((players.filter (fun kv => !kv.2.is_bot)).map (·.1)).length) 0) <
        roles.length := by
      have h5 := List.indexOf_lt_length.mpr htp2
      have h6 : (players.map (fun x => x.1)).length = players.length := by simp
      omega
    exact mem_listSwap hdi hsi hx
  · rw [if_neg hcond] at hx
    exact hx

theorem assignFinal_getD (roles : List String) (players : List (Nat × Player))
    (buff : Nat → Bool) (bc : Nat → Nat) (idx : Nat) (h : idx < players.length) :
    (assignFinal roles players buff bc).getD idx (0, "") =
      assignRole roles buff bc idx (players.getD idx (0, default)) := by
  unfold assignFinal
  have h1 : idx < (players.enum.map
      (fun ip => assignRole roles buff bc ip.1 ip.2)).length := by
    simpa [List.enum] using h
  rw [List.getD_eq_getElem _ _ h1, List.getElem_map]
  simp only [List.enum]
  rw [List.getElem_enumFrom]
  simp only [Nat.zero_add]
  rw [← List.getD_eq_getElem players (0, default) h]

/-! ### C1: role pool construction and assignment -/

def botRoster (n : Nat) : List (Nat × Player) :=
  (List.range n).map (fun i => (i + 1, { name := "B", is_bot := true }))

def c1_shuffled8 : List String :=
  ["don", "doctor", "detective", "executioner", "deputy",
   "consigliere", "mayor", "petrushka", "mafia"]

/-- C1 counterexample: with 8 participants the built pool has 9 roles, and
the assignment loop reads only the first 8 after the shuffle, so for this
permutation (mafia shuffled to the last slot, all-bot roster, no
entitlements) the extra mafia role is added to the pool but assigned to
nobody, although 8 meets the extra-mafia threshold. -/
theorem c1_counterexample :
    c1_shuffled8.Perm (buildRoles (botRoster 8).length) ∧
    MAFIA_EXTRA_THRESHOLD ≤ (botRoster 8).length ∧
    "mafia" ∈ buildRoles (botRoster 8).length ∧
    (assign_roles c1_shuffled8 (botRoster 8) 0 (fun _ => false) (fun _ => 0)).length = 8 ∧
    ((assign_roles c1_shuffled8 (botRoster 8) 0 (fun _ => false)
      (fun _ => 0)).map (·.2)).contains "mafia" = false := by decide

/-- C1 (amended): for every roster size between the configured minimum and
maximum, `assign_roles` terminates and assigns exactly N roles, each drawn
from the closed role enumeration; `civil` occurs in the built pool only as
padding (exactly `N - poolBase` copies); and the extra `mafia` role is
added to the built pool iff N reaches the threshold (when the pool is
larger than N, the tail of the shuffle — possibly including `mafia` — is
never assigned). -/
theorem c1_role_assignment (shuffled : List String) (players : List (Nat × Player))
    (hc : Nat) (buff : Nat → Bool) (bc : Nat → Nat)
    (hmin : MIN_PLAYERS ≤ players.length) (hmax : players.length ≤ MAX_PLAYERS)
    (hperm : shuffled.Perm (buildRoles players.length)) :
    (assign_roles shuffled players hc buff bc).length = players.length ∧
    (∀ kv ∈ assign_roles shuffled players hc buff bc, kv.2 ∈ roleEnum) ∧
    ("mafia" ∈ buildRoles players.length ↔ MAFIA_EXTRA_THRESHOLD ≤ players.length) ∧
    ((buildRoles players.length).count "civil" =
      players.length - (if MAFIA_EXTRA_THRESHOLD ≤ players.length then 9 else 8)) := by
  have hlen : players.length ≤ shuffled.length := by
    rw [hperm.length_eq]
    exact le_buildRoles_length _
  have hlen1 : players.length ≤ (detectiveSwap shuffled players hc).length := by
    rw [length_detectiveSwap]
    exact hlen
  have hmem_roles1 : ∀ y ∈ detectiveSwap shuffled players hc, y ∈ roleEnum := by
    intro y hy
    exact buildRoles_subset _ _ (hperm.mem_iff.mp (mem_detectiveSwap hlen hy))
  refine ⟨?_, ?_, mafia_mem_buildRoles _, civil_count_buildRoles _⟩
  · simp [assign_roles, assignFinal, List.enum]
  · intro kv hkv
    unfold assign_roles assignFinal at hkv
    rcases List.mem_map.mp hkv with ⟨ip, hip, hip2⟩
    have hip1 : ip.1 < players.length := by
      have h1 := List.mem_enum_iff_get?.mp hip
      obtain ⟨hlt, -⟩ := List.get?_eq_some.mp h1
      exact hlt
    rw [← hip2]
    unfold assignRole
    dsimp only
    split
    · unfold activePool
      by_cases he : ((detectiveSwap shuffled players hc).filter
          (fun r => r != "civil")).isEmpty = true
      · rw [if_pos he]
        have : (["don"] : List String).getD (bc ip.1 % (["don"] : List String).length) "don"
            ∈ (["don"] : List String) := getD_mod_mem _ _ _ (by decide)
        have hd : (["don"] : List String).getD
            (bc ip.1 % (["don"] : List String).length) "don" = "don" := by
          rcases List.mem_singleton.mp this with h
          exact h
        rw [hd]
        decide
      · rw [if_neg he]
        have hne : ((detectiveSwap shuffled players hc).filter (fun r => r != "civil")) ≠ [] := by
          intro hnil
          rw [hnil] at he
          simp at he
        have hm := getD_mod_mem ((detectiveSwap shuffled players hc).filter
          (fun r => r != "civil")) (bc ip.1) "don" hne
        exact hmem_roles1 _ (List.mem_of_mem_filter hm)
    · have hlt2 : ip.1 < (detectiveSwap shuffled players hc).length :=
        lt_of_lt_of_le hip1 hlen1
      rw [List.getD_eq_getElem _ _ hlt2]
      exact hmem_roles1 _ (List.getElem_mem hlt2)

theorem c1_witness :
    (assign_roles (buildRoles 5) (civRoster 5) 0 (fun _ => false) (fun _ => 0)).length =
      (civRoster 5).length ∧
    (∀ kv ∈ assign_roles (buildRoles 5) (civRoster 5) 0 (fun _ => false) (fun _ => 0),
      kv.2 ∈ roleEnum) ∧
    ("mafia" ∈ buildRoles (civRoster 5).length ↔
      MAFIA_EXTRA_THRESHOLD ≤ (civRoster 5).length) ∧
    ((buildRoles (civRoster 5).length).count "civil" =
      (civRoster 5).length -
        (if MAFIA_EXTRA_THRESHOLD ≤ (civRoster 5).length then 9 else 8)) := by
  have h := c1_role_assignment (buildRoles 5) (civRoster 5) 0 (fun _ => false) (fun _ => 0)
    (by decide) (by decide) (by rw [show (civRoster 5).length = 5 by decide])
  exact h

/-! ### C9: the detective is always held by a human -/

/-- C9: if at least one human participant exists and the detective role is
in the shuffled pool (it always is), then after `assign_roles` the
detective role is held by a human: some human index receives it, and no
index whose participant is a bot can receive it.  Roster keys are unique
and bots carry no user id, as the lobby code guarantees. -/
theorem c9_detective_assigned_to_human (shuffled : List String)
    (players : List (Nat × Player)) (hc : Nat) (buff : Nat → Bool) (bc : Nat → Nat)
    (hperm : shuffled.Perm (buildRoles players.length))
    (hhuman : players.filter (fun kv => !kv.2.is_bot) ≠ [])
    (hbot : ∀ kv ∈ players, kv.2.is_bot = true → kv.2.user_id = none)
    (hnodup : (players.map (·.1)).Nodup) :
    (∃ idx, idx < players.length ∧
      ((assign_roles shuffled players hc buff bc).getD idx (0, "")).2 = "detective" ∧
      (players.getD idx (0, default)).2.is_bot = false) ∧
    (∀ idx, idx < players.length →
      ((assign_roles shuffled players hc buff bc).getD idx (0, "")).2 = "detective" →
      (players.getD idx (0, default)).2.is_bot = false) := by
  have hlen : players.length ≤ shuffled.length := by
    rw [hperm.length_eq]
    exact le_buildRoles_length _
  have hdet : "detective" ∈ shuffled := hperm.mem_iff.mpr (detective_mem_buildRoles _)
  have hcount : shuffled.count "detective" = 1 := by
    rw [hperm.count_eq]
    exact detective_count_buildRoles _
  set human_ids := (players.filter (fun kv => !kv.2.is_bot)).map (·.1) with hhids
  have hhne : human_ids ≠ [] := by
    rw [hhids]
    intro he
    exact hhuman (List.map_eq_nil.mp he)
  set pid_list := players.map (·.1) with hpids
  set det_idx := shuffled.indexOf "detective" with hdidx
  set target_pid := human_ids.getD (hc % human_ids.length) 0 with htpd
  set swap_idx := pid_list.indexOf target_pid with hsidx
  have hplen : pid_list.length = players.length := by
    rw [hpids]
    simp
  have hcond : (shuffled.contains "detective" && !human_ids.isEmpty) = true := by
    rw [Bool.and_eq_true]
    refine ⟨List.elem_eq_true_of_mem hdet, ?_⟩
    simp [List.isEmpty_iff, hhne]
  have hroles1 : detectiveSwap shuffled players hc = listSwap shuffled det_idx swap_idx := by
    unfold detectiveSwap
    rw [if_pos hcond]
  have hdi_lt : det_idx < shuffled.length := List.indexOf_lt_length.mpr hdet
  have htp_mem : target_pid ∈ human_ids := getD_mod_mem _ _ _ hhne
  have htp_pid : target_pid ∈ pid_list := by
    rw [hhids] at htp_mem
    rcases List.mem_map.mp htp_mem with ⟨kv, hkv, hkv2⟩
    rw [hpids]
    exact List.mem_map.mpr ⟨kv, List.mem_of_mem_filter hkv, hkv2⟩
  have hsw_lt : swap_idx < players.length := by
    have h5 := List.indexOf_lt_length.mpr htp_pid
    omega
  have hsw_lt2 : swap_idx < shuffled.length := lt_of_lt_of_le hsw_lt hlen
  have hget_d : shuffled.getD det_idx "" = "detective" := by
    rw [List.getD_eq_getElem _ _ hdi_lt]
    exact List.getElem_indexOf hdi_lt
  have hsw_ltp : swap_idx < pid_list.length := by omega
  have hget_s : pid_list.getD swap_idx 0 = target_pid := by
    rw [List.getD_eq_getElem _ _ hsw_ltp]
    exact List.getElem_indexOf hsw_ltp
  have hgetD_map : ∀ (i : Nat), i < players.length →
      (players.map (fun x => x.1)).getD i 0 = (players.getD i (0, default)).1 := by
    intro i h
    rw [List.getD_eq_getElem _ _ (by simpa using h), List.getD_eq_getElem _ _ h,
      List.getElem_map]
  have hhuman_si : (players.getD swap_idx (0, default)).2.is_bot = false := by
    rw [hhids] at htp_mem
    rcases List.mem_map.mp htp_mem with ⟨kv, hkvf, hkv1⟩
    have hkvp : kv ∈ players := List.mem_of_mem_filter hkvf
    have hkvbot : kv.2.is_bot = false := by
      have := List.of_mem_filter hkvf
      simpa using this
    rcases List.mem_iff_getElem.mp hkvp with ⟨n, hn, hkvn⟩
    have hnp : n < pid_list.length := by omega
    have hkeyn : pid_list.getD n 0 = target_pid := by
      have h1 := hgetD_map n hn
      have h2 : (players.getD n (0, default)).1 = target_pid := by
        rw [List.getD_eq_getElem _ _ hn, hkvn, hkv1]
      exact h1.trans h2
    have hsame : pid_list.getD n 0 = pid_list.getD swap_idx 0 := hkeyn.trans hget_s.symm
    rw [List.getD_eq_getElem _ _ hnp, List.getD_eq_getElem _ _ hsw_ltp] at hsame
    have heqidx : n = swap_idx := (List.Nodup.getElem_inj_iff hnodup).mp hsame
    subst heqidx
    rw [List.getD_eq_getElem _ _ hsw_lt, hkvn]
    exact hkvbot
  have hrole_si : (detectiveSwap shuffled players hc).getD swap_idx "" = "detective" := by
    rw [hroles1]
    exact (listSwap_getD_at_j shuffled det_idx swap_idx hdi_lt hsw_lt2).trans hget_d
  have huniq : ∀ idx, idx < players.length →
      (detectiveSwap shuffled players hc).getD idx "" = "detective" → idx = swap_idx := by
    intro idx hidx hd2
    rw [hroles1] at hd2
    by_cases h1 : idx = swap_idx
    · exact h1
    by_cases h2 : idx = det_idx
    · rw [h2] at hd2 h1
      rw [listSwap_getD_at_i shuffled det_idx swap_idx hdi_lt hsw_lt2 h1] at hd2
      have h3 := getD_eq_of_count_one hcount hsw_lt2 hdi_lt hd2 hget_d
      exact absurd h3.symm h1
    · rw [listSwap_getD_other shuffled det_idx swap_idx idx
        (lt_of_lt_of_le hidx hlen) h2 h1] at hd2
      have h3 := getD_eq_of_count_one hcount (lt_of_lt_of_le hidx hlen) hdi_lt hd2 hget_d
      exact absurd h3 h2
  have hread : ∀ idx, idx < players.length →
      ((assign_roles shuffled players hc buff bc).getD idx (0, "")).2 =
        (if truthyNat (players.getD idx (0, default)).2.user_id &&
            buff ((players.getD idx (0, default)).2.user_id.getD 0) &&
            ((detectiveSwap shuffled players hc).getD idx "" == "civil")
         then (activePool (detectiveSwap shuffled players hc)).getD
            (bc idx % (activePool (detectiveSwap shuffled players hc)).length) "don"
         else (detectiveSwap shuffled players hc).getD idx "") := by
    intro idx hidx
    unfold assign_roles
    rw [assignFinal_getD _ _ _ _ _ hidx]
    rfl
  constructor
  · refine ⟨swap_idx, hsw_lt, ?_, hhuman_si⟩
    rw [hread swap_idx hsw_lt]
    have hbeq : (("detective" : String) == "civil") = false := by decide
    rw [hrole_si, hbeq, Bool.and_false, if_neg (by simp)]
  · intro idx hidx hdet2
    rw [hread idx hidx] at hdet2
    by_cases hcond2 : (truthyNat (players.getD idx (0, default)).2.user_id &&
        buff ((players.getD idx (0, default)).2.user_id.getD 0) &&
        ((detectiveSwap shuffled players hc).getD idx "" == "civil")) = true
    · have htr : truthyNat (players.getD idx (0, default)).2.user_id = true := by
        rw [Bool.and_eq_true, Bool.and_eq_true] at hcond2
        exact hcond2.1.1
      by_contra hbotT
      have hbotT2 : (players.getD idx (0, default)).2.is_bot = true := by
        revert hbotT
        cases (players.getD idx (0, default)).2.is_bot <;> simp
      have hmem : players.getD idx (0, default) ∈ players := by
        rw [List.getD_eq_getElem _ _ hidx]
        exact List.getElem_mem hidx
      have hnone := hbot _ hmem hbotT2
      rw [hnone] at htr
      simp [truthyNat] at htr
    · rw [if_neg hcond2] at hdet2
      rw [huniq idx hidx hdet2]
      exact hhuman_si

def c9_players : List (Nat × Player) :=
  [(1, { name := "H", user_id := some 10 }),
   (2, { name := "B1", is_bot := true }),
   (3, { name := "B2", is_bot := true }),
   (4, { name := "B3", is_bot := true }),
   (5, { name := "B4", is_bot := true })]

theorem c9_witness :
    ((assign_roles (buildRoles c9_players.length) c9_players 0 (fun _ => false)
      (fun _ => 0)).getD 0 (0, "")).2 = "detective" ∧
    (c9_players.getD 0 (0, default)).2.is_bot = false := by
  obtain ⟨⟨idx, hlt, hdet, hbotf⟩, hall⟩ := c9_detective_assigned_to_human
    (buildRoles c9_players.length) c9_players 0 (fun _ => false) (fun _ => 0)
    (List.Perm.refl _) (by decide) (by decide) (by decide)
  have hlt5 : idx < 5 := lt_of_lt_of_eq hlt (by decide)
  refine ⟨?_, by decide⟩
  interval_cases idx
  · exact hdet
  · exact absurd hbotf (by decide)
  · exact absurd hbotf (by decide)
  · exact absurd hbotf (by decide)
  · exact absurd hbotf (by decide)

